import Mathlib

/-!
Formal model of the order creation and pricing core of an e-commerce backend.

The development shallowly embeds the TypeScript sources:

* `calculateItemSubtotal` and the rounding helper from `src/models/orders.ts`
  (`Math.round(x * 100) / 100`);
* the zod validation schemas `OrderItemInputZodSchema` and
  `CreateOrderZodSchema` together with `validateCreateOrder`;
* the service function `createOrder` from `src/services/orderService.ts`
  (validation, per-item subtotal computation, aggregation, rounding,
  assembly of the persisted document);
* the mongoose `orderSchema` constraints that run when the repository saves
  the document (`new Order(data); order.save()`), modelled as a boolean
  check `mongooseValidateOrder`;
* the order-number generator `generateOrderNumber`
  (`ORD-<base36 time>-<base36 random>` uppercased).

Numbers are modelled as exact rationals; JavaScript `Math.round` is
`fun x => Int.floor (x + 1/2)` (round half toward positive infinity).
-/

attribute [local semireducible] Rat.add Rat.mul Rat.sub Rat.inv

deriving instance DecidableEq for Except

namespace Ecomm

/-- JavaScript `Math.round`: rounds to the nearest integer, halves toward
positive infinity, so `Math.round x = Int.floor (x + 1/2)`. -/
def jsRound (x : ℚ) : ℤ := Int.floor (x + 1/2)

/-- Rounding to two decimal places as the source writes it everywhere:
`Math.round(x * 100) / 100`. -/
def round2 (x : ℚ) : ℚ := (jsRound (x * 100) : ℚ) / 100

/-- Source `calculateItemSubtotal` (models/orders.ts):
`Math.round(quantity * unitPrice * 100) / 100`. -/
def calculateItemSubtotal (quantity unitPrice : ℚ) : ℚ :=
  round2 (quantity * unitPrice)

/-- An element of the `items` array of a create-order request
(shape checked by `OrderItemInputZodSchema`). -/
structure OrderItemInput where
  productId : String
  productName : String
  quantity : ℚ
  unitPrice : ℚ
  taxRate : ℚ
deriving DecidableEq, Repr

/-- A create-order request body (shape checked by `CreateOrderZodSchema`).
Optional fields that the client may omit are `Option`s; `none` is the
JavaScript `undefined`. -/
structure CreateOrderInput where
  customerId : String
  items : List OrderItemInput
  discountAmount : Option ℚ := none
  status : Option String := none
  paymentMethod : Option String := none
deriving DecidableEq, Repr

/-- A persisted order item: the input item plus the computed `subtotal`. -/
structure OrderItem where
  productId : String
  productName : String
  quantity : ℚ
  unitPrice : ℚ
  taxRate : ℚ
  subtotal : ℚ
deriving DecidableEq, Repr

/-- The persisted order document (the fields of `IOrder` that the core
computes; storage-managed timestamps are omitted). -/
structure OrderDoc where
  orderNumber : String
  customerId : String
  items : List OrderItem
  subtotal : ℚ
  taxAmount : ℚ
  discountAmount : ℚ
  totalAmount : ℚ
  status : String
  paymentMethod : String
deriving DecidableEq, Repr

/-- Errors surfaced by order creation: a zod validation failure
(`ValidationError`) or a mongoose schema rejection at save time. -/
inductive CreateOrderError where
  | validationError (msg : String)
  | persistenceError (msg : String)
deriving DecidableEq, Repr

/-- Whether a result is a zod validation failure. -/
def isValidationFailure : Except CreateOrderError OrderDoc → Bool
  | .error (.validationError _) => true
  | _ => false

/-- Whether a result is a mongoose save-time rejection. -/
def isPersistenceFailure : Except CreateOrderError OrderDoc → Bool
  | .error (.persistenceError _) => true
  | _ => false

/-- Hex digit test used by `isValidObjectId`. -/
def isHexChar (c : Char) : Bool :=
  c.isDigit || ('a' ≤ c && c ≤ 'f') || ('A' ≤ c && c ≤ 'F')

/-- Mongoose `Types.ObjectId.isValid` on strings: a 12-character string or a
24-character hex string. -/
def isValidObjectId (s : String) : Bool :=
  s.data.length == 12 || (s.data.length == 24 && s.data.all isHexChar)

/-- Drops leading whitespace characters from a character list. -/
def dropLeadingWs : List Char → List Char
  | [] => []
  | c :: cs => if c.isWhitespace then dropLeadingWs cs else c :: cs

/-- JavaScript `String.prototype.trim` (on the ASCII whitespace the model
uses): drop whitespace from both ends. -/
def jsTrim (s : String) : String :=
  ⟨(dropLeadingWs (dropLeadingWs s.data).reverse).reverse⟩

/-- Zod check of a single order item against `OrderItemInputZodSchema`:
valid `productId`, non-empty `productName` (then trimmed by the `.trim()`
transform), integer `quantity ≥ 1`, `unitPrice ≥ 0`, `taxRate ∈ [0,1]`.
On success it returns the parsed item, whose `productName` is trimmed. -/
def validateOrderItemInput (it : OrderItemInput) : Except String OrderItemInput :=
  if !(isValidObjectId it.productId) then .error "Invalid product ID"
  else if it.productName.data.length == 0 then .error "Product name is required"
  else if !(it.quantity.isInt) then .error "Expected integer"
  else if it.quantity < 1 then .error "Quantity must be at least 1"
  else if it.unitPrice < 0 then .error "Unit price cannot be negative"
  else if it.taxRate < 0 then .error "Tax rate must be between 0 and 1"
  else if 1 < it.taxRate then .error "Tax rate must be between 0 and 1"
  else .ok { it with productName := jsTrim it.productName }

/-- Zod check of the `items` array: every element must parse, in order. -/
def validateItems : List OrderItemInput → Except String (List OrderItemInput)
  | [] => .ok []
  | it :: rest =>
    match validateOrderItemInput it, validateItems rest with
    | .ok v, .ok vs => .ok (v :: vs)
    | .error e, _ => .error e
    | .ok _, .error e => .error e

/-- Zod check of the optional `discountAmount`: when present it must be
non-negative; absence is allowed (the service substitutes 0 later). -/
def discountOk : Option ℚ → Bool
  | none => true
  | some x => decide (0 ≤ x)

/-- Zod check of the optional `status` enum field. -/
def statusOk : Option String → Bool
  | none => true
  | some s => s == "registered" || s == "paid" || s == "delivered"

/-- Source `validateCreateOrder` (models/orders.ts):
`CreateOrderZodSchema.parse`.  The zod parse aggregates issues across
fields; the model returns the first failing check, which agrees with zod on
success/failure and on the parsed value. -/
def validateCreateOrder (d : CreateOrderInput) : Except String CreateOrderInput :=
  if !(isValidObjectId d.customerId) then .error "Invalid customer ID"
  else if d.items.length == 0 then .error "At least one item is required"
  else if !(discountOk d.discountAmount) then .error "Discount amount cannot be negative"
  else if !(statusOk d.status) then .error "Status must be registered, paid, or delivered"
  else
    match validateItems d.items with
    | .error e => .error e
    | .ok items => .ok { d with items := items }

/-- Steps 2-4 of the service `createOrder` (orderService.ts): per-item
subtotals, reduce-based aggregation, rounding, and assembly of the complete
order data.  `orderNumber` stands for the value the mongoose default
`generateOrderNumber` produces at save time; `status` and `paymentMethod`
receive their schema defaults when the client omitted them. -/
def assembleOrder (orderNumber : String) (v : CreateOrderInput) : OrderDoc :=
  let itemsWithSubtotals := v.items.map (fun item =>
    { productId := item.productId
      productName := item.productName
      quantity := item.quantity
      unitPrice := item.unitPrice
      taxRate := item.taxRate
      subtotal := calculateItemSubtotal item.quantity item.unitPrice : OrderItem })
  let subtotal := itemsWithSubtotals.foldl (fun sum item => sum + item.subtotal) 0
  let taxAmount := itemsWithSubtotals.foldl (fun sum item => sum + item.subtotal * item.taxRate) 0
  let discountAmount := v.discountAmount.getD 0
  let totalAmount := subtotal + taxAmount - discountAmount
  { orderNumber := orderNumber
    customerId := v.customerId
    items := itemsWithSubtotals
    subtotal := round2 subtotal
    taxAmount := round2 taxAmount
    discountAmount := round2 discountAmount
    totalAmount := round2 totalAmount
    status := v.status.getD "registered"
    paymentMethod := v.paymentMethod.getD "invoice" }

/-- Mongoose validation of one entry of `items` (the `orderItemSchema`
constraints that run at save time): required non-empty `productName`,
`quantity ≥ 1`, `unitPrice ≥ 0`, `taxRate ∈ [0,1]`, `subtotal ≥ 0`. -/
def mongooseValidateItem (it : OrderItem) : Bool :=
  (!(jsTrim it.productName == ""))
    && decide (1 ≤ it.quantity) && decide (0 ≤ it.unitPrice)
    && decide (0 ≤ it.taxRate) && decide (it.taxRate ≤ 1)
    && decide (0 ≤ it.subtotal)

/-- Mongoose validation of the order document (the `orderSchema`
constraints that run at save time): required non-empty `orderNumber` and
`customerId`, non-empty `items` each passing the item schema, the min-0
constraints on `subtotal`, `taxAmount`, `discountAmount` and `totalAmount`,
and the `status` enum. -/
def mongooseValidateOrder (o : OrderDoc) : Bool :=
  (!(jsTrim o.orderNumber == "")) && (!(o.customerId == ""))
    && decide (0 < o.items.length) && o.items.all mongooseValidateItem
    && decide (0 ≤ o.subtotal) && decide (0 ≤ o.taxAmount)
    && decide (0 ≤ o.discountAmount) && decide (0 ≤ o.totalAmount)
    && (o.status == "registered" || o.status == "paid" || o.status == "delivered")

/-- Source `createOrder` (orderService.ts) followed by the repository save:
zod validation, pricing and assembly, then the mongoose schema check that
`order.save()` performs.  A zod failure surfaces as `validationError`
before any arithmetic; a mongoose rejection surfaces as
`persistenceError`. -/
def createOrder (orderNumber : String) (orderData : CreateOrderInput) :
    Except CreateOrderError OrderDoc :=
  match validateCreateOrder orderData with
  | .error e => .error (.validationError e)
  | .ok v =>
    if mongooseValidateOrder (assembleOrder orderNumber v) then
      .ok (assembleOrder orderNumber v)
    else .error (.persistenceError "Order validation failed")

/-- The character JavaScript uses for a base-36 digit in
`Number.prototype.toString(36)`: `0`-`9` then lowercase `a`-`z`. -/
def digit36Char (d : Fin 36) : Char :=
  if d.val < 10 then Char.ofNat (48 + d.val) else Char.ofNat (87 + d.val)

/-- Base-36 digits of a natural number, least significant first.  The first
argument is fuel; `n + 1` units always suffice for input `n`. -/
def natToBase36Go : Nat → Nat → List (Fin 36)
  | 0, _ => []
  | fuel + 1, n =>
    if h : n < 36 then [⟨n, h⟩]
    else ⟨n % 36, Nat.mod_lt _ (by norm_num)⟩ :: natToBase36Go fuel (n / 36)

/-- JavaScript `n.toString(36)` for a natural number `n`: most significant
digit first, lowercase digits. -/
def natToBase36 (n : Nat) : String :=
  ⟨(natToBase36Go (n + 1) n).reverse.map digit36Char⟩

/-- JavaScript `String.prototype.toUpperCase` on the ASCII strings the model
produces. -/
def upperStr (s : String) : String := ⟨s.data.map Char.toUpper⟩

/-- Source `generateOrderNumber` (models/orders.ts):
`` `ORD-${Date.now().toString(36)}-${Math.random().toString(36).substr(2, 5)}`.toUpperCase() ``.
`timestamp` stands for `Date.now()`; `randDigits` stands for the base-36
fractional digits of `Math.random()` (the characters after `0.`), of which
`substr(2, 5)` keeps at most five. -/
def generateOrderNumber (timestamp : Nat) (randDigits : List (Fin 36)) : String :=
  upperStr ("ORD-" ++ natToBase36 timestamp ++ "-" ++ ⟨(randDigits.take 5).map digit36Char⟩)

/-- The lowercase base-36 digit alphabet. -/
def lower36Chars : List Char := "0123456789abcdefghijklmnopqrstuvwxyz".data

/-! Concrete inputs used to exercise the model.  `vid` is a well-formed
24-character hex ObjectId. -/

def vid : String := "507f1f77bcf86cd799439011"

/-- An order item input with the given quantity, unit price and tax rate. -/
def mkItem (q p r : ℚ) : OrderItemInput :=
  { productId := vid, productName := "Widget", quantity := q, unitPrice := p, taxRate := r }

/-- The worked example of the specification: one item with quantity 2, unit
price 10, tax rate 0.1, and a discount of 1. -/
def exSpec : CreateOrderInput :=
  { customerId := vid, items := [mkItem 2 10 (1/10)], discountAmount := some 1 }

/-- The document `createOrder` produces for `exSpec`. -/
def exSpecDoc (oN : String) : OrderDoc :=
  { orderNumber := oN, customerId := vid
    items := [{ productId := vid, productName := "Widget", quantity := 2,
                unitPrice := 10, taxRate := 1/10, subtotal := 20 }]
    subtotal := 20, taxAmount := 2, discountAmount := 1, totalAmount := 21
    status := "registered", paymentMethod := "invoice" }

/-- Input with a half-cent discount: `0.005` rounds up to `0.01` when
persisted, but the total is computed from the unrounded `0.005`. -/
def exC1 : CreateOrderInput :=
  { customerId := vid, items := [mkItem 1 1 0], discountAmount := some (1/200) }

/-- The document `createOrder` produces for `exC1`: the persisted discount
is `0.01` while the persisted total is `1.00`. -/
def exC1Doc : OrderDoc :=
  { orderNumber := "ORD-1", customerId := vid
    items := [{ productId := vid, productName := "Widget", quantity := 1,
                unitPrice := 1, taxRate := 0, subtotal := 1 }]
    subtotal := 1, taxAmount := 0, discountAmount := 1/100, totalAmount := 1
    status := "registered", paymentMethod := "invoice" }

/-- Input for the per-item rounding example: quantity 3 at unit price 0.33. -/
def exC2 : CreateOrderInput :=
  { customerId := vid, items := [mkItem 3 (33/100) 0] }

/-- The document `createOrder` produces for `exC2`. -/
def exC2Doc : OrderDoc :=
  { orderNumber := "ORD-1", customerId := vid
    items := [{ productId := vid, productName := "Widget", quantity := 3,
                unitPrice := 33/100, taxRate := 0, subtotal := 99/100 }]
    subtotal := 99/100, taxAmount := 0, discountAmount := 0, totalAmount := 99/100
    status := "registered", paymentMethod := "invoice" }

/-- An otherwise-valid input that supplies `status := "paid"`. -/
def exC5 : CreateOrderInput :=
  { customerId := vid, items := [mkItem 1 1 0], status := some "paid" }

/-- The document `createOrder` produces for `exC5`: the client-supplied
status is persisted. -/
def exC5Doc : OrderDoc :=
  { orderNumber := "ORD-1", customerId := vid
    items := [{ productId := vid, productName := "Widget", quantity := 1,
                unitPrice := 1, taxRate := 0, subtotal := 1 }]
    subtotal := 1, taxAmount := 0, discountAmount := 0, totalAmount := 1
    status := "paid", paymentMethod := "invoice" }

/-- An otherwise-valid input whose discount (10) exceeds subtotal plus tax
(1). -/
def exC6 : CreateOrderInput :=
  { customerId := vid, items := [mkItem 1 1 0], discountAmount := some 10 }

/-- An input whose product name carries surrounding whitespace. -/
def exC7 : CreateOrderInput :=
  { customerId := vid
    items := [{ productId := vid, productName := " Widget ", quantity := 1,
                unitPrice := 1, taxRate := 0 }] }

/-- The document `createOrder` produces for `exC7`: the persisted product
name is trimmed. -/
def exC7Doc : OrderDoc :=
  { orderNumber := "ORD-1", customerId := vid
    items := [{ productId := vid, productName := "Widget", quantity := 1,
                unitPrice := 1, taxRate := 0, subtotal := 1 }]
    subtotal := 1, taxAmount := 0, discountAmount := 0, totalAmount := 1
    status := "registered", paymentMethod := "invoice" }

/-! Basic lemmas about the rounding function and the reduce-style sums. -/

theorem foldl_add_map {α : Type} (f : α → ℚ) :
    ∀ (l : List α) (c : ℚ), l.foldl (fun s a => s + f a) c = c + (l.map f).sum := by
  intro l
  induction l with
  | nil => intro c; simp
  | cons a l ih => intro c; simp [ih, add_assoc]

theorem jsRound_intCast (n : ℤ) : jsRound (n : ℚ) = n := by
  unfold jsRound
  rw [Int.floor_int_add]
  have h0 : Int.floor ((1 : ℚ)/2) = 0 := by decide
  rw [h0, add_zero]

theorem round2_cent (n : ℤ) : round2 ((n : ℚ) / 100) = (n : ℚ) / 100 := by
  unfold round2
  rw [div_mul_cancel₀ _ (by norm_num : (100 : ℚ) ≠ 0), jsRound_intCast]

theorem round2_is_cent (x : ℚ) : ∃ n : ℤ, round2 x = (n : ℚ) / 100 :=
  ⟨jsRound (x * 100), rfl⟩

theorem round2_nonneg {x : ℚ} (h : 0 ≤ x) : 0 ≤ round2 x := by
  unfold round2 jsRound
  have h1 : (0 : ℤ) ≤ Int.floor (x * 100 + 1/2) := by
    apply Int.le_floor.mpr
    push_cast
    linarith
  have h2 : (0 : ℚ) ≤ (Int.floor (x * 100 + 1/2) : ℚ) := by exact_mod_cast h1
  exact div_nonneg h2 (by norm_num)

theorem sum_cents (l : List ℚ) (h : ∀ x ∈ l, ∃ n : ℤ, x = (n : ℚ) / 100) :
    ∃ N : ℤ, l.sum = (N : ℚ) / 100 := by
  induction l with
  | nil => exact ⟨0, by simp⟩
  | cons a l ih =>
    obtain ⟨n, hn⟩ := h a (by simp)
    obtain ⟨N, hN⟩ := ih (fun x hx => h x (by simp [hx]))
    exact ⟨n + N, by rw [List.sum_cons, hn, hN]; push_cast; ring⟩

/-! Shape lemmas for the validation layer and the assembler. -/

theorem validateOrderItemInput_ok {a b : OrderItemInput}
    (h : validateOrderItemInput a = .ok b) :
    b.productId = a.productId ∧ b.productName = jsTrim a.productName ∧
      b.quantity = a.quantity ∧ b.unitPrice = a.unitPrice ∧ b.taxRate = a.taxRate ∧
      a.quantity.isInt = true ∧ 1 ≤ a.quantity ∧ 0 ≤ a.unitPrice ∧
      0 ≤ a.taxRate ∧ a.taxRate ≤ 1 := by
  unfold validateOrderItemInput at h
  split_ifs at h with h1 h2 h3 h4 h5 h6 h7
  any_goals cases h
  exact ⟨rfl, rfl, rfl, rfl, rfl, by simpa using h3, not_lt.mp h4,
    not_lt.mp h5, not_lt.mp h6, not_lt.mp h7⟩

theorem validateItems_ok :
    ∀ {l l' : List OrderItemInput}, validateItems l = .ok l' →
      List.Forall₂ (fun a b => validateOrderItemInput a = .ok b) l l' := by
  intro l
  induction l with
  | nil =>
    intro l' h
    unfold validateItems at h
    injection h with h'
    subst h'
    exact List.Forall₂.nil
  | cons it rest ih =>
    intro l' h
    unfold validateItems at h
    cases hv : validateOrderItemInput it with
    | error e => simp only [hv] at h; cases h
    | ok v =>
      cases hr : validateItems rest with
      | error e => simp only [hv, hr] at h; cases h
      | ok vs =>
        simp only [hv, hr] at h
        injection h with h'
        subst h'
        exact List.Forall₂.cons hv (ih hr)

theorem validateCreateOrder_ok {d v : CreateOrderInput}
    (h : validateCreateOrder d = .ok v) :
    v.customerId = d.customerId ∧ v.discountAmount = d.discountAmount ∧
      v.status = d.status ∧ v.paymentMethod = d.paymentMethod ∧
      d.items.length ≠ 0 ∧ discountOk d.discountAmount = true ∧
      statusOk d.status = true ∧ validateItems d.items = .ok v.items := by
  unfold validateCreateOrder at h
  split_ifs at h with h1 h2 h3 h4
  cases hv : validateItems d.items with
  | error e => simp only [hv] at h; cases h
  | ok items =>
    simp only [hv] at h
    injection h with h'
    subst h'
    exact ⟨rfl, rfl, rfl, rfl, by simpa using h2, by simpa using h3,
      by simpa using h4, rfl⟩

theorem createOrder_ok {oN : String} {d : CreateOrderInput} {doc : OrderDoc}
    (h : createOrder oN d = .ok doc) :
    ∃ v, validateCreateOrder d = .ok v ∧ doc = assembleOrder oN v ∧
      mongooseValidateOrder (assembleOrder oN v) = true := by
  unfold createOrder at h
  cases hv : validateCreateOrder d with
  | error e => simp only [hv] at h; cases h
  | ok v =>
    simp only [hv] at h
    by_cases hm : mongooseValidateOrder (assembleOrder oN v) = true
    · rw [if_pos hm] at h
      injection h with h'
      exact ⟨v, rfl, h'.symm, hm⟩
    · rw [if_neg hm] at h
      cases h

theorem assembleOrder_items (oN : String) (v : CreateOrderInput) :
    (assembleOrder oN v).items = v.items.map (fun item =>
      { productId := item.productId, productName := item.productName,
        quantity := item.quantity, unitPrice := item.unitPrice,
        taxRate := item.taxRate,
        subtotal := calculateItemSubtotal item.quantity item.unitPrice }) := rfl

theorem assembleOrder_subtotal (oN : String) (v : CreateOrderInput) :
    (assembleOrder oN v).subtotal =
      round2 ((v.items.map
        (fun it => calculateItemSubtotal it.quantity it.unitPrice)).sum) := by
  unfold assembleOrder
  simp only [foldl_add_map, List.map_map, zero_add]
  rfl

theorem assembleOrder_taxAmount (oN : String) (v : CreateOrderInput) :
    (assembleOrder oN v).taxAmount =
      round2 ((v.items.map
        (fun it => calculateItemSubtotal it.quantity it.unitPrice * it.taxRate)).sum) := by
  unfold assembleOrder
  simp only [foldl_add_map, List.map_map, zero_add]
  rfl

theorem assembleOrder_totalAmount (oN : String) (v : CreateOrderInput) :
    (assembleOrder oN v).totalAmount =
      round2 ((v.items.map
          (fun it => calculateItemSubtotal it.quantity it.unitPrice)).sum
        + (v.items.map
          (fun it => calculateItemSubtotal it.quantity it.unitPrice * it.taxRate)).sum
        - v.discountAmount.getD 0) := by
  unfold assembleOrder
  simp only [foldl_add_map, List.map_map, zero_add]
  rfl

theorem assembleOrder_discountAmount (oN : String) (v : CreateOrderInput) :
    (assembleOrder oN v).discountAmount = round2 (v.discountAmount.getD 0) := rfl

theorem assembleOrder_status (oN : String) (v : CreateOrderInput) :
    (assembleOrder oN v).status = v.status.getD "registered" := rfl

theorem forall₂_mem_left {α β : Type} {r : α → β → Prop} {l : List α} {l' : List β}
    (h : List.Forall₂ r l l') : ∀ {a}, a ∈ l → ∃ b, b ∈ l' ∧ r a b := by
  induction h with
  | nil => intro a ha; cases ha
  | cons hr _ ih =>
    intro a ha
    rcases List.mem_cons.mp ha with rfl | ha'
    · exact ⟨_, List.mem_cons_self _ _, hr⟩
    · obtain ⟨b, hb, hrb⟩ := ih ha'
      exact ⟨b, List.mem_cons_of_mem _ hb, hrb⟩

theorem forall₂_mem_right {α β : Type} {r : α → β → Prop} {l : List α} {l' : List β}
    (h : List.Forall₂ r l l') : ∀ {b}, b ∈ l' → ∃ a, a ∈ l ∧ r a b := by
  induction h with
  | nil => intro b hb; cases hb
  | cons hr _ ih =>
    intro b hb
    rcases List.mem_cons.mp hb with rfl | hb'
    · exact ⟨_, List.mem_cons_self _ _, hr⟩
    · obtain ⟨a, ha, hra⟩ := ih hb'
      exact ⟨a, List.mem_cons_of_mem _ ha, hra⟩

theorem assembleOrder_subtotal_unrounded (oN : String) (v : CreateOrderInput) :
    (assembleOrder oN v).subtotal =
      (v.items.map (fun it => calculateItemSubtotal it.quantity it.unitPrice)).sum := by
  rw [assembleOrder_subtotal]
  obtain ⟨N, hN⟩ :=
    sum_cents (v.items.map (fun it => calculateItemSubtotal it.quantity it.unitPrice))
      (by
        intro x hx
        obtain ⟨it, -, rfl⟩ := List.mem_map.mp hx
        exact round2_is_cent _)
  rw [hN, round2_cent]

theorem validated_items_constraints {d v : CreateOrderInput}
    (hv : validateCreateOrder d = .ok v) :
    ∀ b ∈ v.items, 1 ≤ b.quantity ∧ 0 ≤ b.unitPrice ∧ 0 ≤ b.taxRate ∧ b.taxRate ≤ 1 := by
  obtain ⟨-, -, -, -, -, -, -, hitems⟩ := validateCreateOrder_ok hv
  intro b hb
  obtain ⟨a, -, hok⟩ := forall₂_mem_right (validateItems_ok hitems) hb
  obtain ⟨-, -, hq, hp, hr, -, h1q, h0p, h0r, hr1⟩ := validateOrderItemInput_ok hok
  exact ⟨by rw [hq]; exact h1q, by rw [hp]; exact h0p,
    by rw [hr]; exact h0r, by rw [hr]; exact hr1⟩

/-! The ten claims. -/

/-- C1, counterexample to the claim as stated: for the input `exC1` (one
item of subtotal 1, tax rate 0, discount 0.005) the persisted fields are
subtotal 1, taxAmount 0, discountAmount 0.01, totalAmount 1, and
`round2(subtotal + taxAmount - discountAmount) = 0.99 ≠ 1`: the total is
rounded from the unrounded discount, not recomputed from the persisted
one. -/
theorem C1_counterexample :
    createOrder "ORD-1" exC1 = .ok exC1Doc ∧
    ¬ (exC1Doc.totalAmount =
        round2 (exC1Doc.subtotal + exC1Doc.taxAmount - exC1Doc.discountAmount)) :=
  ⟨by decide, by decide⟩

/-- C1 (amended): for every order `createOrder` accepts, `totalAmount`
equals `round2` of the persisted `subtotal` plus the full-precision tax sum
minus the full-precision (input) discount; and on the specification's
worked example the persisted fields are subtotal 20, taxAmount 2,
discountAmount 1, totalAmount 21. -/
theorem C1_total_formula (oN : String) (d : CreateOrderInput) (doc : OrderDoc)
    (h : createOrder oN d = .ok doc) :
    doc.totalAmount =
      round2 (doc.subtotal
        + (doc.items.map (fun it => it.subtotal * it.taxRate)).sum
        - d.discountAmount.getD 0) ∧
    createOrder "ORD-1" exSpec = .ok (exSpecDoc "ORD-1") := by
  constructor
  · obtain ⟨v, hv, rfl, -⟩ := createOrder_ok h
    obtain ⟨-, hdisc, -⟩ := validateCreateOrder_ok hv
    rw [assembleOrder_totalAmount, assembleOrder_subtotal_unrounded,
      assembleOrder_items, List.map_map, ← hdisc]
    rfl
  · decide

/-- C1 witness: the amended formula evaluated on the specification's worked
example. -/
theorem C1_total_formula_witness :
    createOrder "ORD-1" exSpec = .ok (exSpecDoc "ORD-1") ∧
    (exSpecDoc "ORD-1").totalAmount =
      round2 ((exSpecDoc "ORD-1").subtotal
        + ((exSpecDoc "ORD-1").items.map (fun it => it.subtotal * it.taxRate)).sum
        - exSpec.discountAmount.getD 0) :=
  ⟨by decide, (C1_total_formula "ORD-1" exSpec (exSpecDoc "ORD-1") (by decide)).1⟩

/-- C2: every item persisted by `createOrder` has
`subtotal = round2 (quantity * unitPrice)` (the rounding is applied per
item, inside the map, before any aggregation), and
`calculateItemSubtotal 3 0.33 = 0.99`. -/
theorem C2_item_subtotal (oN : String) (d : CreateOrderInput) (doc : OrderDoc)
    (h : createOrder oN d = .ok doc) :
    doc.items.all
        (fun it => decide (it.subtotal = round2 (it.quantity * it.unitPrice))) = true ∧
    calculateItemSubtotal 3 (33/100) = 99/100 := by
  refine ⟨?_, by decide⟩
  obtain ⟨v, -, rfl, -⟩ := createOrder_ok h
  rw [assembleOrder_items, List.all_eq_true]
  intro x hx
  obtain ⟨a, -, rfl⟩ := List.mem_map.mp hx
  exact decide_eq_true rfl

/-- C2 witness: the per-item subtotal property evaluated on quantity 3 at
unit price 0.33, which persists as 0.99. -/
theorem C2_item_subtotal_witness :
    createOrder "ORD-1" exC2 = .ok exC2Doc ∧
    exC2Doc.items.all
        (fun it => decide (it.subtotal = round2 (it.quantity * it.unitPrice))) = true ∧
    calculateItemSubtotal 3 (33/100) = 99/100 := by
  have h := C2_item_subtotal "ORD-1" exC2 exC2Doc (by decide)
  exact ⟨by decide, h.1, h.2⟩

/-- C3: the persisted `taxAmount` is `round2` of the full-precision sum,
over the items, of the already-rounded item subtotal
`round2 (quantity * unitPrice)` times the item's tax rate — rounding to
cents happens exactly once, at the end. -/
theorem C3_taxAmount_formula (oN : String) (d : CreateOrderInput) (doc : OrderDoc)
    (h : createOrder oN d = .ok doc) :
    doc.taxAmount =
      round2 ((doc.items.map
        (fun it => round2 (it.quantity * it.unitPrice) * it.taxRate)).sum) := by
  obtain ⟨v, -, rfl, -⟩ := createOrder_ok h
  rw [assembleOrder_taxAmount, assembleOrder_items, List.map_map]
  rfl

/-- C3 witness: the tax formula evaluated on the specification's worked
example (tax 2 on a subtotal of 20 at rate 0.1). -/
theorem C3_taxAmount_formula_witness :
    createOrder "ORD-1" exSpec = .ok (exSpecDoc "ORD-1") ∧
    (exSpecDoc "ORD-1").taxAmount =
      round2 (((exSpecDoc "ORD-1").items.map
        (fun it => round2 (it.quantity * it.unitPrice) * it.taxRate)).sum) :=
  ⟨by decide, C3_taxAmount_formula "ORD-1" exSpec (exSpecDoc "ORD-1") (by decide)⟩

/-- C4: an empty items list, or any item with a non-integer quantity,
quantity below 1, negative unit price, or tax rate outside `[0, 1]`, makes
`createOrder` fail with a validation error — the zod parse runs before any
arithmetic or persistence, so no order is produced. -/
theorem C4_invalid_input_rejected (oN : String) (d : CreateOrderInput)
    (h : d.items = [] ∨ ∃ it ∈ d.items,
      ¬ it.quantity.isInt = true ∨ it.quantity < 1 ∨ it.unitPrice < 0 ∨
        it.taxRate < 0 ∨ 1 < it.taxRate) :
    isValidationFailure (createOrder oN d) = true := by
  cases hv : validateCreateOrder d with
  | error e => unfold createOrder; simp only [hv]; rfl
  | ok v =>
    exfalso
    obtain ⟨-, -, -, -, hne, -, -, hitems⟩ := validateCreateOrder_ok hv
    cases h with
    | inl h0 => exact hne (by rw [h0]; rfl)
    | inr h0 =>
      obtain ⟨it, hmem, hbad⟩ := h0
      obtain ⟨b, -, hok⟩ := forall₂_mem_left (validateItems_ok hitems) hmem
      obtain ⟨-, -, -, -, -, hint, h1q, h0p, h0r, hr1⟩ := validateOrderItemInput_ok hok
      rcases hbad with hb | hb | hb | hb | hb
      · exact hb hint
      · exact absurd h1q (not_le.mpr hb)
      · exact absurd h0p (not_le.mpr hb)
      · exact absurd h0r (not_le.mpr hb)
      · exact absurd hr1 (not_le.mpr hb)

/-- C4 witness: the empty-items input is rejected with a validation
error. -/
theorem C4_invalid_input_rejected_witness :
    ({ customerId := vid, items := [] } : CreateOrderInput).items = [] ∧
    isValidationFailure (createOrder "ORD-1" { customerId := vid, items := [] }) = true :=
  ⟨rfl, C4_invalid_input_rejected "ORD-1" { customerId := vid, items := [] } (Or.inl rfl)⟩

/-- C5, counterexample to the claim as stated: the otherwise-valid input
`exC5` supplies `status := "paid"`, and the created order is persisted with
status `"paid"`, not `"registered"` — the optional zod `status` field is
spread into the stored document. -/
theorem C5_counterexample :
    createOrder "ORD-1" exC5 = .ok exC5Doc ∧ exC5Doc.status = "paid" ∧
    ¬ (("paid" : String) = "registered") :=
  ⟨by decide, rfl, by decide⟩

/-- C5 (amended): the created order's status is the client-supplied status
when one is present and `"registered"` otherwise; in particular every order
created from an input without a `status` field has status `"registered"`. -/
theorem C5_status_default (oN : String) (d : CreateOrderInput) (doc : OrderDoc)
    (h : createOrder oN d = .ok doc) :
    doc.status = d.status.getD "registered" := by
  obtain ⟨v, hv, rfl, -⟩ := createOrder_ok h
  obtain ⟨-, -, hst, -⟩ := validateCreateOrder_ok hv
  rw [assembleOrder_status, hst]

/-- C5 witness: the worked example supplies no status and is created with
status `"registered"`. -/
theorem C5_status_default_witness :
    createOrder "ORD-1" exSpec = .ok (exSpecDoc "ORD-1") ∧
    (exSpecDoc "ORD-1").status = exSpec.status.getD "registered" :=
  ⟨by decide, C5_status_default "ORD-1" exSpec (exSpecDoc "ORD-1") (by decide)⟩

/-- C6, counterexample to the claim as stated: for the otherwise-valid
input `exC6` (subtotal 1, tax 0, discount 10) order creation does not
succeed silently — it fails, and fails at the persistence layer, because
the mongoose schema's min-0 constraint on `totalAmount` rejects the
negative total. -/
theorem C6_counterexample :
    (createOrder "ORD-1" exC6).isOk = false ∧
    isPersistenceFailure (createOrder "ORD-1" exC6) = true :=
  ⟨by decide, by decide⟩

/-- C6 (amended): when validation accepts the input and the assembled
document's (rounded) `totalAmount` is negative — as happens whenever the
discount exceeds subtotal plus tax by at least half a cent — neither the
zod layer nor the pricing step rejects, and creation instead fails at the
persistence layer with the mongoose schema rejection. -/
theorem C6_negative_total_persistence (oN : String) (d v : CreateOrderInput)
    (hv : validateCreateOrder d = .ok v)
    (hneg : (assembleOrder oN v).totalAmount < 0) :
    createOrder oN d = .error (.persistenceError "Order validation failed") := by
  have hm : mongooseValidateOrder (assembleOrder oN v) = false := by
    unfold mongooseValidateOrder
    rw [decide_eq_false (not_le.mpr hneg)]
    simp
  unfold createOrder
  simp only [hv]
  rw [hm]
  simp

/-- C6 witness: the amended statement evaluated on the discount-10
example. -/
theorem C6_negative_total_persistence_witness :
    validateCreateOrder exC6 = .ok exC6 ∧
    (assembleOrder "ORD-1" exC6).totalAmount < 0 ∧
    createOrder "ORD-1" exC6 = .error (.persistenceError "Order validation failed") :=
  ⟨by decide, by decide,
    C6_negative_total_persistence "ORD-1" exC6 exC6 (by decide) (by decide)⟩

/-- C7, counterexample to the claim as stated: the input item name
`" Widget "` is persisted as `"Widget"` — zod's `.trim()` transform changes
`productName`, so the persisted item does not carry it unchanged. -/
theorem C7_counterexample :
    (createOrder "ORD-1" exC7).map (fun doc => doc.items.map OrderItem.productName)
      = .ok ["Widget"] ∧
    exC7.items.map OrderItemInput.productName = [" Widget "] ∧
    ¬ (("Widget" : String) = " Widget ") :=
  ⟨by decide, rfl, by decide⟩

/-- C7 (amended): the persisted items correspond one-to-one, in order, with
the input items; each carries its input `productId`, `quantity`,
`unitPrice` and `taxRate` unchanged and its `productName` trimmed of
surrounding whitespace, with only the computed `subtotal` added. -/
theorem C7_items_preserved (oN : String) (d : CreateOrderInput) (doc : OrderDoc)
    (h : createOrder oN d = .ok doc) :
    List.Forall₂ (fun (a : OrderItemInput) (b : OrderItem) =>
        b.productId = a.productId ∧ b.productName = jsTrim a.productName ∧
        b.quantity = a.quantity ∧ b.unitPrice = a.unitPrice ∧
        b.taxRate = a.taxRate ∧
        b.subtotal = calculateItemSubtotal a.quantity a.unitPrice)
      d.items doc.items ∧
    doc.items.length = d.items.length := by
  obtain ⟨v, hv, rfl, -⟩ := createOrder_ok h
  obtain ⟨-, -, -, -, -, -, -, hitems⟩ := validateCreateOrder_ok hv
  have hf := validateItems_ok hitems
  rw [assembleOrder_items]
  constructor
  · rw [List.forall₂_map_right_iff]
    refine hf.imp ?_
    intro a b hab
    obtain ⟨hid, hname, hq, hp, hr, -⟩ := validateOrderItemInput_ok hab
    exact ⟨hid, hname, hq, hp, hr, by rw [hq, hp]⟩
  · rw [List.length_map]
    exact (List.Forall₂.length_eq hf).symm

/-- C7 witness: the amended item correspondence evaluated on the
padded-name example. -/
theorem C7_items_preserved_witness :
    createOrder "ORD-1" exC7 = .ok exC7Doc ∧
    (List.Forall₂ (fun (a : OrderItemInput) (b : OrderItem) =>
        b.productId = a.productId ∧ b.productName = jsTrim a.productName ∧
        b.quantity = a.quantity ∧ b.unitPrice = a.unitPrice ∧
        b.taxRate = a.taxRate ∧
        b.subtotal = calculateItemSubtotal a.quantity a.unitPrice)
      exC7.items exC7Doc.items ∧
    exC7Doc.items.length = exC7.items.length) :=
  ⟨by decide, C7_items_preserved "ORD-1" exC7 exC7Doc (by decide)⟩

/-- C8: the pricing computation is a pure function of the validated input —
two runs of `createOrder` on the same input, differing only in the
ambient-generated order number, persist identical item lists, subtotal,
taxAmount, discountAmount and totalAmount.  (In the model the pricing step
`assembleOrder` is a total function with no effects, mirroring that the
source's pricing code only maps and reduces over its input.) -/
theorem C8_pricing_deterministic (oN₁ oN₂ : String) (d : CreateOrderInput)
    (d₁ d₂ : OrderDoc)
    (h₁ : createOrder oN₁ d = .ok d₁) (h₂ : createOrder oN₂ d = .ok d₂) :
    d₁.items = d₂.items ∧ d₁.subtotal = d₂.subtotal ∧
    d₁.taxAmount = d₂.taxAmount ∧ d₁.discountAmount = d₂.discountAmount ∧
    d₁.totalAmount = d₂.totalAmount := by
  obtain ⟨v₁, hv₁, rfl, -⟩ := createOrder_ok h₁
  obtain ⟨v₂, hv₂, rfl, -⟩ := createOrder_ok h₂
  rw [hv₁] at hv₂
  injection hv₂ with h'
  subst h'
  exact ⟨rfl, rfl, rfl, rfl, rfl⟩

/-- C8 witness: two runs with different order numbers on the worked example
agree on every pricing field. -/
theorem C8_pricing_deterministic_witness :
    createOrder "ORD-A" exSpec = .ok (exSpecDoc "ORD-A") ∧
    createOrder "ORD-B" exSpec = .ok (exSpecDoc "ORD-B") ∧
    ((exSpecDoc "ORD-A").items = (exSpecDoc "ORD-B").items ∧
      (exSpecDoc "ORD-A").subtotal = (exSpecDoc "ORD-B").subtotal ∧
      (exSpecDoc "ORD-A").taxAmount = (exSpecDoc "ORD-B").taxAmount ∧
      (exSpecDoc "ORD-A").discountAmount = (exSpecDoc "ORD-B").discountAmount ∧
      (exSpecDoc "ORD-A").totalAmount = (exSpecDoc "ORD-B").totalAmount) :=
  ⟨by decide, by decide,
    C8_pricing_deterministic "ORD-A" "ORD-B" exSpec _ _ (by decide) (by decide)⟩

/-- C10: on every input the zod layer accepts, the computed `subtotal`,
`taxAmount` and `discountAmount` of the assembled order are non-negative,
so the mongoose schema's min-0 constraints on those three fields can never
reject an output of the pricing computation. -/
theorem C10_priced_fields_nonneg (oN : String) (d v : CreateOrderInput)
    (hv : validateCreateOrder d = .ok v) :
    0 ≤ (assembleOrder oN v).subtotal ∧ 0 ≤ (assembleOrder oN v).taxAmount ∧
    0 ≤ (assembleOrder oN v).discountAmount := by
  have hitems := validated_items_constraints hv
  refine ⟨?_, ?_, ?_⟩
  · rw [assembleOrder_subtotal]
    apply round2_nonneg
    apply List.sum_nonneg
    intro x hx
    obtain ⟨it, hit, rfl⟩ := List.mem_map.mp hx
    obtain ⟨h1q, h0p, -⟩ := hitems it hit
    exact round2_nonneg (mul_nonneg (le_trans zero_le_one h1q) h0p)
  · rw [assembleOrder_taxAmount]
    apply round2_nonneg
    apply List.sum_nonneg
    intro x hx
    obtain ⟨it, hit, rfl⟩ := List.mem_map.mp hx
    obtain ⟨h1q, h0p, h0r, -⟩ := hitems it hit
    exact mul_nonneg (round2_nonneg (mul_nonneg (le_trans zero_le_one h1q) h0p)) h0r
  · rw [assembleOrder_discountAmount]
    apply round2_nonneg
    obtain ⟨-, hdisc, -, -, -, hdOk, -⟩ := validateCreateOrder_ok hv
    rw [hdisc]
    cases hd : d.discountAmount with
    | none => exact le_refl 0
    | some x =>
      rw [hd] at hdOk
      exact of_decide_eq_true hdOk

/-- C10 witness: the non-negativity facts evaluated on the worked
example. -/
theorem C10_priced_fields_nonneg_witness :
    validateCreateOrder exSpec = .ok exSpec ∧
    (0 ≤ (assembleOrder "ORD-1" exSpec).subtotal ∧
      0 ≤ (assembleOrder "ORD-1" exSpec).taxAmount ∧
      0 ≤ (assembleOrder "ORD-1" exSpec).discountAmount) :=
  ⟨by decide, C10_priced_fields_nonneg "ORD-1" exSpec exSpec (by decide)⟩

theorem data_append (s t : String) : (s ++ t).data = s.data ++ t.data := by
  cases s
  cases t
  rfl

theorem upperStr_append (s t : String) : upperStr (s ++ t) = upperStr s ++ upperStr t := by
  cases s with
  | mk a =>
    cases t with
    | mk b =>
      show (⟨(a ++ b).map Char.toUpper⟩ : String) = ⟨a.map Char.toUpper ++ b.map Char.toUpper⟩
      rw [List.map_append]

theorem digit36Char_mem : ∀ d : Fin 36, digit36Char d ∈ lower36Chars := by decide

/-- C9: for every timestamp and every random digit sequence, the generated
order number is exactly the uppercased `ORD-<base36 timestamp>-<base36
random>` template: it decomposes into that shape, its first four characters
are `ORD-`, and no character of it is a lowercase letter. -/
theorem C9_orderNumber_format (t : Nat) (r : List (Fin 36)) :
    generateOrderNumber t r =
      "ORD-" ++ upperStr (natToBase36 t) ++ "-"
        ++ upperStr ⟨(r.take 5).map digit36Char⟩ ∧
    (generateOrderNumber t r).data.take 4 = "ORD-".data ∧
    (generateOrderNumber t r).data.all (fun c => !c.isLower) = true := by
  have hmain : generateOrderNumber t r =
      "ORD-" ++ upperStr (natToBase36 t) ++ "-"
        ++ upperStr ⟨(r.take 5).map digit36Char⟩ := by
    unfold generateOrderNumber
    rw [upperStr_append, upperStr_append, upperStr_append]
    rw [show upperStr "ORD-" = "ORD-" from by decide,
      show upperStr "-" = "-" from by decide]
  refine ⟨hmain, ?_, ?_⟩
  · rw [hmain, data_append, data_append, data_append,
      List.append_assoc, List.append_assoc]
    have h4 : ("ORD-".data).length = 4 := rfl
    rw [← h4, List.take_left]
  · rw [List.all_eq_true]
    intro c hc
    have hdata : (generateOrderNumber t r).data =
        (("ORD-" ++ natToBase36 t ++ "-"
          ++ (⟨(r.take 5).map digit36Char⟩ : String)).data).map Char.toUpper := rfl
    rw [hdata] at hc
    obtain ⟨c₀, hc₀, rfl⟩ := List.mem_map.mp hc
    have hOrd : ∀ x ∈ "ORD-".data, x ∈ ('O' :: 'R' :: 'D' :: '-' :: lower36Chars) := by
      decide
    have hDash : ∀ x ∈ "-".data, x ∈ ('O' :: 'R' :: 'D' :: '-' :: lower36Chars) := by
      decide
    have hLow : ∀ x ∈ lower36Chars, x ∈ ('O' :: 'R' :: 'D' :: '-' :: lower36Chars) := by
      decide
    have hmem : c₀ ∈ ('O' :: 'R' :: 'D' :: '-' :: lower36Chars) := by
      rw [data_append, data_append, data_append] at hc₀
      rcases List.mem_append.mp hc₀ with h1 | h1
      · rcases List.mem_append.mp h1 with h2 | h2
        · rcases List.mem_append.mp h2 with h3 | h3
          · exact hOrd c₀ h3
          · have : c₀ ∈ (natToBase36Go (t + 1) t).reverse.map digit36Char := h3
            obtain ⟨d, -, rfl⟩ := List.mem_map.mp this
            exact hLow _ (digit36Char_mem d)
        · exact hDash c₀ h2
      · have : c₀ ∈ (r.take 5).map digit36Char := h1
        obtain ⟨d, -, rfl⟩ := List.mem_map.mp this
        exact hLow _ (digit36Char_mem d)
    have hUp : ∀ x ∈ ('O' :: 'R' :: 'D' :: '-' :: lower36Chars),
        (!(Char.toUpper x).isLower) = true := by decide
    exact hUp c₀ hmem

end Ecomm
